import Mathlib

/-!
Verification of the text-to-SQL service: a shallow embedding of the
SQL safety validator, the semantic query cache, the schema discovery
column analyzer, the vectorization pipeline and the vector utilities,
with theorems settling the specification claims against the code.

Python strings are embedded as `List Char`; floats as `ℚ` (or `ℝ` for
the cosine-similarity functions, which use a square root); fallible
code returns `Except`/`Option`.
-/

namespace TTS

/-! ## List helpers -/

theorem dropWhile_length_le {α : Type} (p : α → Bool) (l : List α) :
    (l.dropWhile p).length ≤ l.length := by
  induction l with
  | nil => simp [List.dropWhile]
  | cons a l ih =>
    by_cases h : p a
    · simpa [List.dropWhile, h] using Nat.le_succ_of_le ih
    · simp [List.dropWhile, h]

/-- Boolean substring test (Python's `in` on strings). -/
def substr (needle hay : List Char) : Bool := decide (needle <:+: hay)

/-! ## Python string primitives -/

/-- Characters removed by Python's `str.strip()` (ASCII whitespace). -/
def pyIsSpace (c : Char) : Bool :=
  c = ' ' || c = '\t' || c = '\n' || c = '\r' || c = Char.ofNat 11 || c = Char.ofNat 12

/-- Python `str.strip()` of the trailing end only. -/
def stripEnd (s : List Char) : List Char :=
  (s.reverse.dropWhile pyIsSpace).reverse

/-- Python `str.strip()`: drop leading and trailing whitespace. -/
def strip (s : List Char) : List Char :=
  stripEnd (s.dropWhile pyIsSpace)

/-- Python `str.lower()` (ASCII). -/
def lower (s : List Char) : List Char := s.map Char.toLower

/-- Python `str.upper()` (ASCII). -/
def upper (s : List Char) : List Char := s.map Char.toUpper

/-! ## SQLValidator (src/agents/text_to_sql.py)

`clean_sql_response` strips markdown code fences and a fixed list of
case-insensitive prefixes from raw LLM output. -/

/-- The `prefixes_to_remove` list of `clean_sql_response`. -/
def removableHeads : List (List Char) :=
  ["SQL:".toList, "Query:".toList, "Here is the SQL:".toList,
   "The SQL query is:".toList, "SQL query:".toList]

/-- One iteration of the prefix-removal loop of `clean_sql_response`:
`if cleaned.lower().startswith(p.lower()): cleaned = cleaned[len(p):].strip()`. -/
def stripHead (cleaned : List Char) (p : List Char) : List Char :=
  if (lower p).isPrefixOf (lower cleaned) then strip (cleaned.drop p.length) else cleaned

/-- `SQLValidator.clean_sql_response`. -/
def clean_sql_response (response : List Char) : List Char :=
  if strip response = [] then [] else
  let c1 := strip response
  let c2 := if "```sql".toList.isPrefixOf c1 then c1.drop 6
            else if "```".toList.isPrefixOf c1 then c1.drop 3
            else c1
  let c3 := if "```".toList.isSuffixOf c2 then c2.take (c2.length - 3) else c2
  let c4 := removableHeads.foldl stripHead c3
  strip c4

/-! ### Model of the sqlparse tokenizer

The repository parses SQL with the external `sqlparse` library.  We
model it at the granularity the validator observes: the input is split
into whitespace tokens, `;` punctuation tokens and word tokens; word
tokens are classified as DML keywords (`SELECT`/`INSERT`/`UPDATE`/
`DELETE`, ttype `Keyword.DML`), DDL keywords (`CREATE`/`DROP`/`ALTER`,
ttype `Keyword.DDL` — which the validator's first-token scan skips,
since `Keyword.DDL` is not `in (Keyword, Keyword.DML)`), plain
keywords (ttype `Keyword`) or grouped literal/identifier tokens
(ttype `None`); statements are split after each `;`. -/

inductive TType where
  | kw | dml | ddl | ws | punct
  deriving DecidableEq, Repr

structure SqlToken where
  ttype : Option TType
  val : List Char
  deriving DecidableEq, Repr

abbrev Statement := List SqlToken

def dmlWords : List (List Char) :=
  ["SELECT".toList, "INSERT".toList, "UPDATE".toList, "DELETE".toList]

def ddlWords : List (List Char) :=
  ["CREATE".toList, "DROP".toList, "ALTER".toList]

def plainKeywords : List (List Char) :=
  ["FROM".toList, "WHERE".toList, "TABLE".toList, "INTO".toList, "VALUES".toList,
   "SET".toList, "AND".toList, "OR".toList, "ORDER".toList, "BY".toList,
   "GROUP".toList, "LIMIT".toList, "JOIN".toList, "ON".toList, "AS".toList]

/-- Classify a word token the way sqlparse assigns token types. -/
def classify (w : List Char) : SqlToken :=
  if upper w ∈ dmlWords then ⟨some TType.dml, w⟩
  else if upper w ∈ ddlWords then ⟨some TType.ddl, w⟩
  else if upper w ∈ plainKeywords then ⟨some TType.kw, w⟩
  else ⟨none, w⟩

/-- Emit the pending word accumulator (held reversed) as a classified
token, if non-empty. -/
def flushWord (acc : List Char) : List SqlToken :=
  if acc = [] then [] else [classify acc.reverse]

/-- Tokenize a SQL string (model of sqlparse lexing); `acc` is the
current word run, reversed. -/
def tokenizeAux : List Char → List Char → List SqlToken
  | [], acc => flushWord acc
  | c :: rest, acc =>
    if pyIsSpace c then
      flushWord acc ++ ⟨some TType.ws, [c]⟩ :: tokenizeAux rest []
    else if c = ';' then
      flushWord acc ++ ⟨some TType.punct, [';']⟩ :: tokenizeAux rest []
    else tokenizeAux rest (c :: acc)

def tokenize (s : List Char) : List SqlToken := tokenizeAux s []

/-- Split a token stream into statements after each `;` token. -/
def splitStmtsAux : List SqlToken → List SqlToken → List Statement
  | [], acc => if acc = [] then [] else [acc.reverse]
  | t :: rest, acc =>
    if t.ttype = some TType.punct then (t :: acc).reverse :: splitStmtsAux rest []
    else splitStmtsAux rest (t :: acc)

/-- `SQLValidator.parse_sql_statements` (via the sqlparse model). -/
def parse_sql_statements (sql : List Char) : List Statement :=
  splitStmtsAux (tokenize sql) []

/-- `str(statement)`: the source text of a statement. -/
def stmtStr (st : Statement) : List Char := (st.map SqlToken.val).flatten

/-- The first-meaningful-token scan of `is_select_only`: the first token
whose ttype is `None` with non-blank text, or whose ttype is `Keyword`
or `Keyword.DML`; its text stripped and uppercased. -/
def firstTok : Statement → Option (List Char)
  | [] => none
  | t :: rest =>
    match t.ttype with
    | none => if strip t.val ≠ [] then some (upper (strip t.val)) else firstTok rest
    | some TType.kw => some (upper (strip t.val))
    | some TType.dml => some (upper (strip t.val))
    | some _ => firstTok rest

/-- Per-statement compliance in `is_select_only`:
`if first_token and not first_token.startswith('SELECT'): return False`. -/
def stmtSelectOk (st : Statement) : Bool :=
  match firstTok st with
  | none => true
  | some t => if t = [] then true else "SELECT".toList.isPrefixOf t

/-- `SQLValidator.is_select_only`. -/
def is_select_only (sql : List Char) : Bool :=
  (parse_sql_statements sql).all stmtSelectOk

/-- The keyword list of the syntax validator. -/
def sqlKeywords : List (List Char) :=
  ["SELECT".toList, "INSERT".toList, "UPDATE".toList, "DELETE".toList,
   "CREATE".toList, "DROP".toList, "ALTER".toList]

/-- Per-statement check of the syntax validator: non-empty tokens,
non-blank text, comments skipped, else some SQL keyword must occur in
the uppercased statement text. -/
def stmtSyntaxOk (st : Statement) : Bool :=
  if st = [] then false
  else
    let s := strip (stmtStr st)
    if s = [] then false
    else if "--".toList.isPrefixOf s || "/*".toList.isPrefixOf s then true
    else sqlKeywords.any (fun k => substr k (upper s))

/-- The validator method checking SQL syntax (named for its result
here; the source spells it with validate first). -/
def sql_syntax_valid (sql : List Char) : Bool :=
  if strip sql = [] then false
  else
    let stmts := parse_sql_statements sql
    if stmts = [] then false else stmts.all stmtSyntaxOk

/-- `SQLValidator.validate_and_clean_sql`. -/
def validate_and_clean_sql (sql : List Char) (readonly : Bool) : List Char :=
  let cleaned := clean_sql_response sql
  if cleaned = [] then []
  else if !sql_syntax_valid cleaned then []
  else if readonly && !is_select_only cleaned then []
  else cleaned

/-! ### Properties of `strip` and `clean_sql_response` -/

theorem dropWhile_dropWhile {α : Type} (p : α → Bool) (l : List α) :
    (l.dropWhile p).dropWhile p = l.dropWhile p := by
  induction l with
  | nil => simp
  | cons a l ih =>
    by_cases h : p a
    · simpa [List.dropWhile_cons, h] using ih
    · simp [List.dropWhile_cons, h]

theorem dropWhile_suffix_exists {α : Type} (p : α → Bool) (l : List α) :
    ∃ t, t ++ l.dropWhile p = l := by
  induction l with
  | nil => exact ⟨[], rfl⟩
  | cons a l ih =>
    by_cases h : p a
    · obtain ⟨t, ht⟩ := ih
      exact ⟨a :: t, by simp [List.dropWhile_cons, h, ht]⟩
    · exact ⟨[], by simp [List.dropWhile_cons, h]⟩

/-- `stripEnd` only removes from the tail, so a stable head survives:
if `l.dropWhile p = l` then the same holds after `stripEnd`. -/
theorem dropWhile_stripEnd (x : List Char) (h : x.dropWhile pyIsSpace = x) :
    (stripEnd x).dropWhile pyIsSpace = stripEnd x := by
  obtain ⟨t, ht⟩ := dropWhile_suffix_exists pyIsSpace x.reverse
  have hpre : ∃ u, stripEnd x ++ u = x := by
    refine ⟨t.reverse, ?_⟩
    have := congrArg List.reverse ht
    simpa [stripEnd, List.reverse_append] using this
  obtain ⟨u, hu⟩ := hpre
  cases hse : stripEnd x with
  | nil => simp
  | cons d ds =>
    rw [hse] at hu
    have hx : x = d :: (ds ++ u) := by simpa using hu.symm
    have hd : pyIsSpace d = false := by
      by_contra hcon
      have hd' : pyIsSpace d = true := by
        cases hval : pyIsSpace d
        · exact absurd hval hcon
        · rfl
      rw [hx, List.dropWhile_cons, if_pos hd'] at h
      have hle := dropWhile_length_le pyIsSpace (ds ++ u)
      rw [h] at hle
      simp only [List.length_cons] at hle
      omega
    simp [List.dropWhile_cons, hd]

theorem strip_idem (s : List Char) : strip (strip s) = strip s := by
  have h1 : (strip s).dropWhile pyIsSpace = strip s :=
    dropWhile_stripEnd _ (dropWhile_dropWhile pyIsSpace s)
  show stripEnd ((strip s).dropWhile pyIsSpace) = strip s
  rw [h1]
  show stripEnd (stripEnd (s.dropWhile pyIsSpace)) = strip s
  simp [stripEnd, dropWhile_dropWhile]
  rfl

theorem strip_nil : strip ([] : List Char) = [] := rfl

/-- The output of `clean_sql_response` is already stripped. -/
theorem clean_stripped (s : List Char) :
    strip (clean_sql_response s) = clean_sql_response s := by
  rw [clean_sql_response]
  split
  · exact strip_nil
  · exact strip_idem _

theorem syntax_valid_ne_nil {c : List Char} (h : sql_syntax_valid c = true) :
    c ≠ [] := by
  intro hc
  rw [hc] at h
  simp [sql_syntax_valid, strip_nil] at h

/-! ### Claim theorems for the validator -/

/-- C1.  For raw SQL whose cleaned form is syntactically valid,
`validate_and_clean_sql` with `readonly = true` returns non-empty
output iff every parsed statement's leading keyword starts with
`SELECT`; in particular `"SELECT * FROM t; DROP TABLE t;"` with
readonly yields the empty string, and without readonly a non-empty
cleaned string. -/
theorem readonly_selects_iff :
    (∀ s : List Char, sql_syntax_valid (clean_sql_response s) = true →
      (validate_and_clean_sql s true ≠ [] ↔
        ∀ st ∈ parse_sql_statements (clean_sql_response s), stmtSelectOk st = true))
    ∧ validate_and_clean_sql "SELECT * FROM t; DROP TABLE t;".toList true = []
    ∧ validate_and_clean_sql "SELECT * FROM t; DROP TABLE t;".toList false ≠ [] := by
  refine ⟨?_, by decide, by decide⟩
  intro s hsyn
  have hne : clean_sql_response s ≠ [] := syntax_valid_ne_nil hsyn
  rw [validate_and_clean_sql]
  simp only [hsyn, Bool.not_true, Bool.true_and, if_neg hne, if_false]
  rw [← List.all_eq_true (l := parse_sql_statements (clean_sql_response s))]
  show ((if !is_select_only (clean_sql_response s) then [] else clean_sql_response s) ≠ [])
    ↔ is_select_only (clean_sql_response s) = true
  by_cases hsel : is_select_only (clean_sql_response s) = true
  · simp [hsel, hne]
  · simp only [Bool.not_eq_true] at hsel
    simp [hsel]

/-- C1 witness: the general part applied to the concrete readonly
example. -/
theorem readonly_selects_iff_witness :
    validate_and_clean_sql "SELECT * FROM t; DROP TABLE t;".toList true ≠ [] ↔
      ∀ st ∈ parse_sql_statements
        (clean_sql_response "SELECT * FROM t; DROP TABLE t;".toList),
        stmtSelectOk st = true :=
  readonly_selects_iff.1 "SELECT * FROM t; DROP TABLE t;".toList (by decide)

/-- C2.  Empty or whitespace-only input is rejected (empty string)
regardless of `readonly`. -/
theorem blank_input_rejected :
    ∀ (s : List Char) (readonly : Bool), (∀ c ∈ s, pyIsSpace c = true) →
      validate_and_clean_sql s readonly = [] := by
  intro s ro h
  have hdrop : s.dropWhile pyIsSpace = [] := List.dropWhile_eq_nil_iff.mpr h
  have hstrip : strip s = [] := by simp [strip, hdrop, stripEnd]
  have hclean : clean_sql_response s = [] := by rw [clean_sql_response, if_pos hstrip]
  simp [validate_and_clean_sql, hclean]

/-- C2 witness at a concrete whitespace-only input. -/
theorem blank_input_rejected_witness :
    (∀ c ∈ " \t\n ".toList, pyIsSpace c = true)
    ∧ validate_and_clean_sql " \t\n ".toList true = []
    ∧ validate_and_clean_sql " \t\n ".toList false = [] :=
  ⟨by decide, blank_input_rejected _ true (by decide),
    blank_input_rejected _ false (by decide)⟩

/-- C10 counterexample: `clean_sql_response` is not idempotent — a
second pass strips a prefix the first pass exposed. -/
theorem clean_not_idempotent_cex :
    clean_sql_response (clean_sql_response "SQL: SQL: SELECT 1".toList) ≠
      clean_sql_response "SQL: SQL: SELECT 1".toList := by decide

theorem foldl_stripHead_id (c : List Char) (ps : List (List Char))
    (h : ∀ p ∈ ps, (lower p).isPrefixOf (lower c) = false) :
    ps.foldl stripHead c = c := by
  induction ps with
  | nil => rfl
  | cons p ps ih =>
    have hp : stripHead c p = c := by
      rw [stripHead, if_neg]
      simp [h p (by simp)]
    rw [List.foldl_cons, hp]
    exact ih (fun q hq => h q (by simp [hq]))

/-- C10 amended.  `clean_sql_response` is idempotent on every input
whose cleaned output does not itself begin or end with a code fence
marker and does not begin (case-insensitively) with one of the
removable prefixes; in general a second pass can strip further (see
the counterexample). -/
theorem clean_idempotent_amended :
    ∀ s : List Char,
      "```".toList.isPrefixOf (clean_sql_response s) = false →
      "```".toList.isSuffixOf (clean_sql_response s) = false →
      (∀ p ∈ removableHeads,
        (lower p).isPrefixOf (lower (clean_sql_response s)) = false) →
      clean_sql_response (clean_sql_response s) = clean_sql_response s := by
  intro s h1 h2 h3
  by_cases hc : clean_sql_response s = []
  · rw [hc]; rfl
  · have hsc : strip (clean_sql_response s) = clean_sql_response s := clean_stripped s
    conv_lhs => rw [clean_sql_response]
    rw [if_neg (by rw [hsc]; exact hc)]
    rw [hsc]
    have hsql : "```sql".toList.isPrefixOf (clean_sql_response s) = false := by
      by_contra hcon
      have hval : "```sql".toList.isPrefixOf (clean_sql_response s) = true := by
        cases hv : "```sql".toList.isPrefixOf (clean_sql_response s)
        · exact absurd hv hcon
        · rfl
      have hpre : "```sql".toList <+: clean_sql_response s :=
        List.isPrefixOf_iff_prefix.mp hval
      have h36 : "```".toList <+: "```sql".toList := ⟨"sql".toList, by decide⟩
      have hfin := List.isPrefixOf_iff_prefix.mpr (h36.trans hpre)
      rw [h1] at hfin
      exact Bool.false_ne_true hfin
    simp only [hsql, h1, h2, Bool.false_eq_true, if_false]
    rw [foldl_stripHead_id _ _ h3]
    exact hsc

/-- C10 amended witness at a concrete input. -/
theorem clean_idempotent_amended_witness :
    clean_sql_response (clean_sql_response "SELECT 1".toList) =
      clean_sql_response "SELECT 1".toList :=
  clean_idempotent_amended "SELECT 1".toList (by decide) (by decide) (by decide)

/-! ## Vector utilities (src/utils/vector.py)

`np.dot` of two 1-d vectors is the sum of pairwise products and
`np.linalg.norm` is the square root of the sum of squares; floats are
embedded as `ℝ` since a square root is taken. -/

def dotProduct (v1 v2 : List ℝ) : ℝ := (List.zipWith (fun a b => a * b) v1 v2).sum

noncomputable def magnitude (v : List ℝ) : ℝ :=
  Real.sqrt ((v.map (fun x => x * x)).sum)

section
open Classical

/-- `cosine_similarity` from src/utils/vector.py: guarded against a
zero magnitude before dividing. -/
noncomputable def cosine_similarity (v1 v2 : List ℝ) : ℝ :=
  if magnitude v1 = 0 ∨ magnitude v2 = 0 then 0
  else dotProduct v1 v2 / (magnitude v1 * magnitude v2)

end

/-- C9.  `cosine_similarity` is total and never divides by zero: a
zero-magnitude argument yields exactly 0, and otherwise the result is
the dot product over the (non-zero) product of magnitudes. -/
theorem cosine_similarity_total :
    ∀ v1 v2 : List ℝ,
      (magnitude v1 = 0 ∨ magnitude v2 = 0 → cosine_similarity v1 v2 = 0)
      ∧ (magnitude v1 ≠ 0 → magnitude v2 ≠ 0 →
          magnitude v1 * magnitude v2 ≠ 0
          ∧ cosine_similarity v1 v2 =
              dotProduct v1 v2 / (magnitude v1 * magnitude v2)) := by
  intro v1 v2
  constructor
  · intro h
    rw [cosine_similarity, if_pos h]
  · intro h1 h2
    refine ⟨mul_ne_zero h1 h2, ?_⟩
    rw [cosine_similarity, if_neg (by tauto)]

/-- C9 witness: both branches applied at concrete vectors. -/
theorem cosine_similarity_total_witness :
    cosine_similarity [(0 : ℝ)] [(1 : ℝ)] = 0
    ∧ cosine_similarity [(3 : ℝ)] [(4 : ℝ)] =
        dotProduct [(3 : ℝ)] [(4 : ℝ)] / (magnitude [(3 : ℝ)] * magnitude [(4 : ℝ)]) := by
  have hm0 : magnitude [(0 : ℝ)] = 0 := by
    rw [magnitude]
    simp
  have hm3 : magnitude [(3 : ℝ)] ≠ 0 := by
    rw [magnitude]
    rw [Real.sqrt_ne_zero']
    norm_num
  have hm4 : magnitude [(4 : ℝ)] ≠ 0 := by
    rw [magnitude]
    rw [Real.sqrt_ne_zero']
    norm_num
  exact ⟨(cosine_similarity_total [(0 : ℝ)] [(1 : ℝ)]).1 (Or.inl hm0),
    ((cosine_similarity_total [(3 : ℝ)] [(4 : ℝ)]).2 hm3 hm4).2⟩

/-! ## ChromaCache (src/database/chroma_db.py)

The ChromaDB client is external; `find_similar_question` is modelled
over the query result the store returns (`documents`/`metadatas`/
`distances`, each a list of per-query lists).  Any Python exception —
including an `IndexError`/`KeyError` on the result accesses — is
caught by the function's `except` clause and becomes `None`, so all
failure paths collapse to `none`. -/

structure QueryResult where
  documents : List (List String)
  metadatas : List (List (List (String × String)))
  distances : List (List ℚ)
  deriving DecidableEq, Repr

/-- Python dict lookup on a metadata entry (`KeyError` → `none`). -/
def lookupMeta (m : List (String × String)) (k : String) : Option String :=
  (m.find? (fun kv => kv.1 == k)).map (fun kv => kv.2)

/-- `ChromaCache.find_similar_question`, from the store's query result
onward: converts the returned distance to `similarity = 1 - distance`
and returns the best match only when `similarity >= threshold`. -/
def find_similar_question (results : Option QueryResult) (threshold : ℚ) :
    Option (String × String × ℚ) :=
  match results with
  | none => none
  | some r =>
    if !r.documents.isEmpty && !r.distances.isEmpty && !(r.documents.headD []).isEmpty then
      match r.distances.head?.bind List.head? with
      | none => none
      | some distance =>
        let similarity := 1 - distance
        if similarity ≥ threshold then
          match r.documents.head?.bind List.head?,
              (r.metadatas.head?.bind List.head?).bind (fun m => lookupMeta m "sql_query") with
          | some doc, some sq => some (doc, sq, similarity)
          | _, _ => none
        else none
    else none

/-- C3.  `find_similar_question` converts the store's distance to
`similarity = 1 - distance` and returns the best match exactly when
`similarity >= threshold`; at the boundary the entry is returned,
strictly below it none is. -/
theorem find_similar_threshold :
    (∀ (doc sq : String) (d t : ℚ),
      find_similar_question (some ⟨[[doc]], [[[("sql_query", sq)]]], [[d]]⟩) t =
        if 1 - d ≥ t then some (doc, sq, 1 - d) else none)
    ∧ find_similar_question
        (some ⟨[["q"]], [[[("sql_query", "s")]]], [[1/4]]⟩) (3/4) = some ("q", "s", 3/4)
    ∧ find_similar_question
        (some ⟨[["q"]], [[[("sql_query", "s")]]], [[1/4]]⟩) (4/5) = none := by
  have hgen : ∀ (doc sq : String) (d t : ℚ),
      find_similar_question (some ⟨[[doc]], [[[("sql_query", sq)]]], [[d]]⟩) t =
        if 1 - d ≥ t then some (doc, sq, 1 - d) else none := by
    intro doc sq d t
    simp [find_similar_question, lookupMeta]
  refine ⟨hgen, ?_, ?_⟩
  · rw [hgen, if_pos (by norm_num)]
    norm_num
  · rw [hgen, if_neg (by norm_num)]

/-! ### ChromaCache statistics (C7)

`__init__` sets `self.persist_directory` only on the fallback path to
the local persistent client; an instance connected to the ChromaDB
server never has the attribute.  Reading a missing attribute raises
`AttributeError`, modelled as `Except.error`. -/

inductive StatVal where
  | int (n : ℤ)
  | str (s : String)
  deriving DecidableEq, Repr

abbrev StatsDict := List (String × StatVal)

/-- A cache instance after `__init__`: `collection` holds the entry
count the collection reports (`none` once `close()` has run), and
`persist_directory` is present only for a local-client instance. -/
structure ChromaCache where
  collection : Option ℕ
  collection_name : String
  persist_directory : Option String
  deriving DecidableEq, Repr

/-- Python attribute read `self.persist_directory`. -/
def attrPersistDirectory (c : ChromaCache) : Except String String :=
  match c.persist_directory with
  | some d => Except.ok d
  | none => Except.error "AttributeError: persist_directory"

/-- `ChromaCache.get_cache_stats`: the `try` body builds the stats
dict (returning `{}` when the collection is gone), and the `except`
handler builds a fallback dict — itself reading
`self.persist_directory`. -/
def get_cache_stats (c : ChromaCache) : Except String StatsDict :=
  let tryBody : Except String StatsDict :=
    match c.collection with
    | none => Except.ok []
    | some cnt =>
      match attrPersistDirectory c with
      | Except.error e => Except.error e
      | Except.ok pd =>
        Except.ok [("total_entries", StatVal.int cnt),
                   ("collection_name", StatVal.str c.collection_name),
                   ("persist_directory", StatVal.str pd)]
  match tryBody with
  | Except.ok d => Except.ok d
  | Except.error e =>
    match attrPersistDirectory c with
    | Except.error e2 => Except.error e2
    | Except.ok pd =>
      Except.ok [("total_entries", StatVal.int 0),
                 ("collection_name", StatVal.str c.collection_name),
                 ("persist_directory", StatVal.str pd),
                 ("error", StatVal.str e)]

/-- C7 (code bug).  On a server-backed cache instance — where
`persist_directory` was never set — `get_cache_stats` raises an
`AttributeError` (even its `except` handler reads the attribute),
instead of returning a statistics dictionary; on a local-client
instance, including an empty one, it does return the dictionary with
`total_entries` and `collection_name`. -/
theorem stats_raises_on_server_cache :
    get_cache_stats ⟨some 0, "sql_queries", none⟩ =
      Except.error "AttributeError: persist_directory"
    ∧ get_cache_stats ⟨some 0, "sql_queries", some "./chroma_data"⟩ =
      Except.ok [("total_entries", StatVal.int 0),
                 ("collection_name", StatVal.str "sql_queries"),
                 ("persist_directory", StatVal.str "./chroma_data")] := by
  constructor
  · rfl
  · rfl

/-! ## DatabaseDiscoveryService (src/services/discovery_service.py) -/

def supported_text_types : List (List Char) :=
  ["varchar".toList, "char".toList, "text".toList, "nvarchar".toList, "nchar".toList,
   "ntext".toList, "longtext".toList, "mediumtext".toList, "tinytext".toList,
   "string".toList, "json".toList, "jsonb".toList, "xml".toList, "clob".toList,
   "blob".toList]

def supported_numeric_types : List (List Char) :=
  ["int".toList, "integer".toList, "bigint".toList, "smallint".toList, "tinyint".toList,
   "decimal".toList, "numeric".toList, "float".toList, "double".toList, "real".toList,
   "money".toList, "smallmoney".toList]

structure ColumnAnalysis where
  name : List Char
  column_type : List Char
  is_text : Bool
  is_numeric : Bool
  nullable : Bool
  vectorizable : Bool
  potential_score : ℚ
  recommended_for_embedding : Bool
  deriving DecidableEq, Repr

/-- `DatabaseDiscoveryService._analyze_column`. -/
def analyze_column (name ctypeRaw : List Char) (nullable : Bool) : ColumnAnalysis :=
  let column_type := lower ctypeRaw
  let is_text := supported_text_types.any (fun t => substr t column_type)
  let is_numeric := supported_numeric_types.any (fun t => substr t column_type)
  let vectorizable := is_text &&
    (substr "text".toList column_type || substr "varchar".toList column_type)
  let nameLower := lower name
  let potential_score : ℚ :=
    if substr "text".toList column_type || substr "longtext".toList column_type then 9/10
    else if substr "varchar".toList column_type &&
        (substr "description".toList nameLower || substr "comment".toList nameLower ||
         substr "content".toList nameLower) then 8/10
    else if substr "varchar".toList column_type then 1/2
    else if substr "json".toList column_type then 7/10
    else 0
  ⟨name, column_type, is_text, is_numeric, nullable, vectorizable, potential_score,
    decide (potential_score > 6/10)⟩

/-- C6.  `analyze_column` scores by the first-match-wins rule, sets
`vectorizable` iff the column is text-typed with a type containing
"text" or "varchar", and recommends for embedding iff the score
exceeds 0.6; type "text" scores 0.9 and is vectorizable, type "int"
scores 0 and is not. -/
theorem analyze_column_rule :
    (∀ (name ctypeRaw : List Char) (nb : Bool),
      (analyze_column name ctypeRaw nb).potential_score =
        (if substr "text".toList (lower ctypeRaw)
            || substr "longtext".toList (lower ctypeRaw) then 9/10
         else if substr "varchar".toList (lower ctypeRaw) &&
            (substr "description".toList (lower name) ||
             substr "comment".toList (lower name) ||
             substr "content".toList (lower name)) then 8/10
         else if substr "varchar".toList (lower ctypeRaw) then 1/2
         else if substr "json".toList (lower ctypeRaw) then 7/10
         else 0)
      ∧ (analyze_column name ctypeRaw nb).vectorizable =
          ((analyze_column name ctypeRaw nb).is_text &&
            (substr "text".toList (lower ctypeRaw)
              || substr "varchar".toList (lower ctypeRaw)))
      ∧ (analyze_column name ctypeRaw nb).recommended_for_embedding =
          decide ((analyze_column name ctypeRaw nb).potential_score > 6/10))
    ∧ (analyze_column "note".toList "text".toList true).potential_score = 9/10
    ∧ (analyze_column "note".toList "text".toList true).vectorizable = true
    ∧ (analyze_column "age".toList "int".toList true).potential_score = 0
    ∧ (analyze_column "age".toList "int".toList true).vectorizable = false := by
  refine ⟨?_, by rfl, by rfl, by rfl, by rfl⟩
  intro name ctypeRaw nb
  exact ⟨rfl, rfl, rfl⟩

/-- `DatabaseDiscoveryService._recommend_strategy`. -/
def recommend_strategy (vectorizable_count : ℕ) : String :=
  if vectorizable_count = 0 then "none"
  else if vectorizable_count = 1 then "single_column"
  else if vectorizable_count ≤ 3 then "concatenated"
  else "weighted_combination"

/-! ## VectorizationService (src/services/vectorization_service.py)

The relational metadata store is embedded as explicit record lists;
`status` and `vectorization_strategy` are the string values of the
`(str, Enum)` classes in src/database/models/enums.py, so comparing a
stored string to an enum member compares against the member's value. -/

/-- Value of `VectorizationStrategy.SINGLE_COLUMN`. -/
def strategySingleColumn : String := "single_column"

/-- Value of `VectorizationStrategy.CONCATENATED`. -/
def strategyConcatenated : String := "concatenated"

/-- Value of `VectorizationStrategy.WEIGHTED_COMBINATION` — note the
value is `"weighted"`, not `"weighted_combination"`. -/
def strategyWeighted : String := "weighted"

/-- Value of `VectorizationStrategy.SEMANTIC_CHUNKS`. -/
def strategySemanticChunks : String := "semantic_chunks"

structure TableConfigRec where
  id : ℕ
  database_connection_id : ℕ
  table_name : String
  vectorization_strategy : String
  is_enabled : Bool
  deriving DecidableEq, Repr

structure ColumnConfigRec where
  table_config_id : ℕ
  column_name : String
  should_vectorize : Bool
  embedding_weight : ℚ
  deriving DecidableEq, Repr

structure JobRec where
  id : ℕ
  table_config_id : ℕ
  status : String
  progress_percentage : ℚ
  total_rows : ℕ
  processed_rows : ℕ
  successful_rows : ℕ
  failed_rows : ℕ
  started_at : Option Unit
  completed_at : Option Unit
  error_message : Option String
  chromadb_collection_name : Option String
  created_by : Option String
  deriving DecidableEq, Repr

structure DbConnRec where
  id : ℕ
  is_active : Bool
  deriving DecidableEq, Repr

/-- The relational metadata store. -/
structure MetaState where
  tableConfigs : List TableConfigRec
  columnConfigs : List ColumnConfigRec
  jobs : List JobRec
  connections : List DbConnRec
  deriving DecidableEq, Repr

/-- `VectorizationService.start_vectorization_job`.  A raised
`ValueError` rolls the session back, so errors leave the store
unchanged. -/
def start_vectorization_job (st : MetaState) (table_config_id : ℕ)
    (user_id : Option String) : Except String JobRec × MetaState :=
  match st.tableConfigs.find? (fun t => t.id == table_config_id) with
  | none => (Except.error "Table configuration not found", st)
  | some tc =>
    if !tc.is_enabled then (Except.error "Table configuration is disabled", st)
    else
      match st.jobs.find? (fun j => j.table_config_id == table_config_id &&
          (j.status == "pending" || j.status == "in_progress")) with
      | some _ =>
        (Except.error "A vectorization job is already running for this table", st)
      | none =>
        let job : JobRec :=
          { id := st.jobs.length + 1, table_config_id := table_config_id,
            status := "pending", progress_percentage := 0, total_rows := 0,
            processed_rows := 0, successful_rows := 0, failed_rows := 0,
            started_at := none, completed_at := none, error_message := none,
            chromadb_collection_name :=
              some ("table_" ++ toString table_config_id ++ "_" ++ tc.table_name),
            created_by := user_id }
        (Except.ok job, { st with jobs := st.jobs ++ [job] })

/-! ### Content generation (`_generate_content`) -/

/-- A source-table row: column name to optional stringified value
(`none` for a SQL NULL or a missing key). -/
abbrev DbRecord := List (String × Option String)

def recGet (r : DbRecord) (k : String) : Option String :=
  (r.find? (fun kv => kv.1 == k)).bind (fun kv => kv.2)

/-- `self.max_text_length`. -/
def maxTextLength : ℕ := 8000

/-- Python `str[:8000]`. -/
def truncateText (s : String) : String := String.mk (s.toList.take maxTextLength)

/-- The SINGLE_COLUMN branch: the first vectorizable column whose
value is present, stringified and truncated; empty if none. -/
def singleColumnContent (record : DbRecord) (columns : List ColumnConfigRec) : String :=
  match columns.find? (fun c => c.should_vectorize && (recGet record c.column_name).isSome) with
  | some c => truncateText ((recGet record c.column_name).getD "")
  | none => ""

/-- The CONCATENATED branch parts: `"column: value"` for each
vectorizable column with a present value. -/
def concatParts (record : DbRecord) (columns : List ColumnConfigRec) : List String :=
  columns.filterMap (fun c =>
    if c.should_vectorize then
      (recGet record c.column_name).map (fun v => c.column_name ++ ": " ++ v)
    else none)

/-- The WEIGHTED_COMBINATION branch parts: the value repeated
`max(1, int(weight*3))` times. -/
def weightedParts (record : DbRecord) (columns : List ColumnConfigRec) : List String :=
  columns.filterMap (fun c =>
    if c.should_vectorize && c.embedding_weight > 0 then
      (recGet record c.column_name).map (fun v =>
        let m := max 1 (Int.toNat ⌊c.embedding_weight * 3⌋)
        c.column_name ++ ": " ++ String.intercalate " " (List.replicate m v))
    else none)

/-- `VectorizationService._generate_content`.  The Python default
branch calls `self._generate_content(record, table_config, columns)`
with unchanged arguments; the recursion is made explicit with a fuel
parameter, `none` meaning the call never returns (a `RecursionError`
at runtime, whatever the stack bound). -/
def generate_content (fuel : ℕ) (record : DbRecord) (cfg : TableConfigRec)
    (columns : List ColumnConfigRec) : Option String :=
  match fuel with
  | 0 => none
  | Nat.succ fuel =>
    if cfg.vectorization_strategy = strategySingleColumn then
      some (singleColumnContent record columns)
    else if cfg.vectorization_strategy = strategyConcatenated then
      some (truncateText (String.intercalate " | " (concatParts record columns)))
    else if cfg.vectorization_strategy = strategyWeighted then
      some (truncateText (String.intercalate " | " (weightedParts record columns)))
    else
      generate_content fuel record cfg columns

/-- Python's default recursion limit, the fuel at which CPython raises
`RecursionError`. -/
def recLimit : ℕ := 1000

/-- `VectorizationService._process_batch`, counts only: a record whose
content generation raises or returns empty counts as failed; the batch
store either succeeds for all generated documents or fails them all. -/
def process_batch (batch : List DbRecord) (tc : TableConfigRec)
    (columns : List ColumnConfigRec) (storeOk : Bool) : ℕ × ℕ :=
  let docs := batch.filterMap (fun r =>
    (generate_content recLimit r tc columns).bind (fun c =>
      if c = "" then none else some c))
  let failedGen := batch.length - docs.length
  if docs.isEmpty then (0, failedGen)
  else if storeOk then (docs.length, failedGen)
  else (0, failedGen + docs.length)

/-- `VectorizationService._process_table`: `(processed, successful,
failed, batch-flush count)`.  With no vectorizable columns it returns
zeros at once; rows and store outcomes are the external inputs. -/
def process_table (job : JobRec) (tc : TableConfigRec)
    (columnConfigs : List ColumnConfigRec) (batches : List (List DbRecord))
    (storeOk : Bool) : ℕ × ℕ × ℕ × ℕ :=
  let vectorizable := columnConfigs.filter (fun c =>
    c.table_config_id == tc.id && c.should_vectorize)
  if vectorizable.isEmpty then (0, 0, 0, 0)
  else
    match job.chromadb_collection_name with
    | none => (0, 0, 0, 0)
    | some _ =>
      batches.foldl (fun acc batch =>
        let (bs, bf) := process_batch batch tc vectorizable storeOk
        (acc.1 + batch.length, acc.2.1 + bs, acc.2.2.1 + bf, acc.2.2.2 + 1))
        (0, 0, 0, 0)

/-- The `except` handler of `process_vectorization_job`: mark the job
failed with the error message. -/
def markFailed (jobs : List JobRec) (jobId : ℕ) (msg : String) : List JobRec :=
  jobs.map (fun j => if j.id == jobId then
    { j with status := "failed", error_message := some msg, completed_at := some () }
    else j)

/-- The `try` body of `process_vectorization_job`; on success returns
the new store and the job's status at each `session.flush`. -/
def tryProcess (st : MetaState) (jobId : ℕ) (batches : List (List DbRecord))
    (storeOk : Bool) : Except String (MetaState × List String) :=
  match st.jobs.find? (fun j => j.id == jobId) with
  | none => Except.error "Vectorization job not found"
  | some job =>
    match st.tableConfigs.find? (fun t => t.id == job.table_config_id) with
    | none => Except.error "Table configuration not found"
    | some tc =>
      let job1 := { job with status := "in_progress", started_at := some () }
      match st.connections.find? (fun c => c.id == tc.database_connection_id) with
      | none => Except.error "Database connection is not available"
      | some conn =>
        if !conn.is_active then Except.error "Database connection is not available"
        else
          let r := process_table job1 tc st.columnConfigs batches storeOk
          let job2 := { job1 with
            status := "completed"
            completed_at := some ()
            total_rows := r.1
            processed_rows := r.1
            successful_rows := r.2.1
            failed_rows := r.2.2.1
            progress_percentage := 100 }
          Except.ok
            ({ st with jobs := st.jobs.map (fun j => if j.id == jobId then job2 else j) },
             "in_progress" :: List.replicate r.2.2.2 "in_progress" ++ ["completed"])

/-- `VectorizationService.process_vectorization_job`: on an exception
the session rolls back and the handler re-reads the job and marks it
failed. -/
def process_vectorization_job (st : MetaState) (jobId : ℕ)
    (batches : List (List DbRecord)) (storeOk : Bool) :
    Bool × MetaState × List String :=
  match tryProcess st jobId batches storeOk with
  | Except.ok r => (true, r.1, r.2)
  | Except.error e =>
    match st.jobs.find? (fun j => j.id == jobId) with
    | none => (false, st, [])
    | some _ => (false, { st with jobs := markFailed st.jobs jobId e }, ["failed"])

/-! ### Claim theorems for the vectorization pipeline -/

/-- C8 (code bug).  `_generate_content` never returns for any
strategy outside the three handled enum values — its default branch
recurses with unchanged arguments, whatever the recursion bound; the
unhandled values include `"none"` and `"weighted_combination"` as
produced by `_recommend_strategy` (the enum value is `"weighted"`). -/
theorem generate_content_default_loops :
    (∀ (fuel : ℕ) (record : DbRecord) (cfg : TableConfigRec)
        (columns : List ColumnConfigRec),
      cfg.vectorization_strategy ≠ strategySingleColumn →
      cfg.vectorization_strategy ≠ strategyConcatenated →
      cfg.vectorization_strategy ≠ strategyWeighted →
      generate_content fuel record cfg columns = none)
    ∧ recommend_strategy 0 = "none"
    ∧ recommend_strategy 4 = "weighted_combination"
    ∧ strategyWeighted = "weighted" := by
  refine ⟨?_, rfl, rfl, rfl⟩
  intro fuel
  induction fuel with
  | zero => intro r cfg cols h1 h2 h3; rfl
  | succ n ih =>
    intro r cfg cols h1 h2 h3
    simp only [generate_content, if_neg h1, if_neg h2, if_neg h3]
    exact ih r cfg cols h1 h2 h3

/-- C8 witness: the divergence at the concrete strategy `"none"` with
Python's recursion bound as fuel. -/
theorem generate_content_default_loops_witness :
    generate_content 1000 [] ⟨1, 1, "users", "none", true⟩ [] = none :=
  generate_content_default_loops.1 1000 [] ⟨1, 1, "users", "none", true⟩ []
    (by decide) (by decide) (by decide)

/-- A store whose only table configuration is disabled but still has a
pending job for it. -/
def disabledState : MetaState :=
  ⟨[⟨1, 1, "users", "single_column", false⟩], [],
   [⟨7, 1, "pending", 0, 0, 0, 0, 0, none, none, none, some "table_1_users", none⟩],
   [⟨1, true⟩]⟩

/-- C4 counterexample: with a pending job present but the table
configuration disabled, `start_vectorization_job` fails with the
"disabled" error, not the "already running" one (though still without
creating a job row). -/
theorem start_job_guard_cex :
    (∃ j ∈ disabledState.jobs, j.table_config_id = 1 ∧ j.status = "pending")
    ∧ start_vectorization_job disabledState 1 none ≠
        (Except.error "A vectorization job is already running for this table",
         disabledState)
    ∧ start_vectorization_job disabledState 1 none =
        (Except.error "Table configuration is disabled", disabledState) := by
  refine ⟨?_, ?_, by rfl⟩
  · exact ⟨⟨7, 1, "pending", 0, 0, 0, 0, 0, none, none, none, some "table_1_users", none⟩,
      by simp [disabledState], rfl, rfl⟩
  · intro h
    have := congrArg Prod.fst h
    simp [start_vectorization_job, disabledState] at this

/-- C4 amended.  For an existing and enabled table configuration,
starting a job while another job for the same configuration is pending
or in progress fails with the specific "already running" error and
leaves the store unchanged (no second job row). -/
theorem start_job_already_running :
    ∀ (st : MetaState) (tcid : ℕ) (user : Option String) (tc : TableConfigRec),
      st.tableConfigs.find? (fun t => t.id == tcid) = some tc →
      tc.is_enabled = true →
      (∃ j ∈ st.jobs, (j.table_config_id == tcid &&
          (j.status == "pending" || j.status == "in_progress")) = true) →
      start_vectorization_job st tcid user =
        (Except.error "A vectorization job is already running for this table", st) := by
  intro st tcid user tc hfind hen hex
  have hsome : (st.jobs.find? (fun j => j.table_config_id == tcid &&
      (j.status == "pending" || j.status == "in_progress"))).isSome := by
    rw [List.find?_isSome]
    obtain ⟨j, hj, hp⟩ := hex
    exact ⟨j, hj, hp⟩
  obtain ⟨j, hj⟩ := Option.isSome_iff_exists.mp hsome
  simp only [start_vectorization_job]
  rw [hfind, hj]
  simp [hen]

/-- A store with an enabled configuration and an in-progress job. -/
def runningState : MetaState :=
  ⟨[⟨1, 1, "users", "single_column", true⟩], [],
   [⟨7, 1, "in_progress", 0, 0, 0, 0, 0, some (), none, none, some "table_1_users", none⟩],
   [⟨1, true⟩]⟩

/-- C4 amended witness at a concrete store. -/
theorem start_job_already_running_witness :
    start_vectorization_job runningState 1 none =
      (Except.error "A vectorization job is already running for this table",
       runningState) :=
  start_job_already_running runningState 1 none ⟨1, 1, "users", "single_column", true⟩
    (by rfl) rfl
    ⟨⟨7, 1, "in_progress", 0, 0, 0, 0, 0, some (), none, none, some "table_1_users", none⟩,
      by simp [runningState], by rfl⟩

/-- C5.  Processing a job whose table configuration has no
vectorizable columns is not a failure: whatever the source rows or the
store outcome, the pending job goes through `in_progress` to
`completed` with all row counters zero and no error message. -/
theorem zero_column_job_completes :
    ∀ (st : MetaState) (jobId : ℕ) (batches : List (List DbRecord)) (storeOk : Bool)
      (job : JobRec) (tc : TableConfigRec) (conn : DbConnRec),
      st.jobs.find? (fun j => j.id == jobId) = some job →
      job.status = "pending" →
      job.error_message = none →
      st.tableConfigs.find? (fun t => t.id == job.table_config_id) = some tc →
      st.connections.find? (fun c => c.id == tc.database_connection_id) = some conn →
      conn.is_active = true →
      st.columnConfigs.filter
        (fun c => c.table_config_id == tc.id && c.should_vectorize) = [] →
      process_vectorization_job st jobId batches storeOk =
        (true,
         { st with jobs := st.jobs.map (fun j => if j.id == jobId then
             { job with
               status := "completed"
               started_at := some ()
               completed_at := some ()
               total_rows := 0
               processed_rows := 0
               successful_rows := 0
               failed_rows := 0
               progress_percentage := 100
               error_message := none } else j) },
         ["in_progress", "completed"]) := by
  intro st jobId batches storeOk job tc conn hjob hpend hmsg htc hconn hact hcols
  have hpt : process_table { job with status := "in_progress", started_at := some () }
      tc st.columnConfigs batches storeOk = (0, 0, 0, 0) := by
    simp only [process_table, hcols, List.isEmpty_nil, if_true]
  have htry : tryProcess st jobId batches storeOk =
      Except.ok
        ({ st with jobs := st.jobs.map (fun j => if j.id == jobId then
            { job with
              status := "completed"
              started_at := some ()
              completed_at := some ()
              total_rows := 0
              processed_rows := 0
              successful_rows := 0
              failed_rows := 0
              progress_percentage := 100
              error_message := none } else j) },
         ["in_progress", "completed"]) := by
    simp only [tryProcess]
    rw [hjob]
    simp only []
    rw [htc]
    simp only []
    rw [hconn]
    simp only [hact, Bool.not_true, Bool.false_eq_true, if_false, hpt]
    obtain ⟨jid, jtcid, jst, jpp, jtr, jpr, jsr, jfr, jsa, jca, jem, jcn, jcb⟩ := job
    simp only at hmsg
    subst hmsg
    rfl
  simp only [process_vectorization_job, htry]

/-- A concrete store for the C5 witness: one enabled configuration,
one column not marked for vectorization, one pending job, one active
connection. -/
def zeroColState : MetaState :=
  ⟨[⟨1, 1, "users", "single_column", true⟩], [⟨1, "name", false, 1⟩],
   [⟨3, 1, "pending", 0, 0, 0, 0, 0, none, none, none, some "table_1_users", none⟩],
   [⟨1, true⟩]⟩

/-- C5 witness at the concrete store. -/
theorem zero_column_job_completes_witness :
    process_vectorization_job zeroColState 3 [] true =
      (true,
       { zeroColState with jobs := zeroColState.jobs.map (fun j => if j.id == 3 then
           { (⟨3, 1, "pending", 0, 0, 0, 0, 0, none, none, none,
               some "table_1_users", none⟩ : JobRec) with
             status := "completed"
             started_at := some ()
             completed_at := some ()
             total_rows := 0
             processed_rows := 0
             successful_rows := 0
             failed_rows := 0
             progress_percentage := 100
             error_message := none } else j) },
       ["in_progress", "completed"]) :=
  zero_column_job_completes zeroColState 3 [] true
    ⟨3, 1, "pending", 0, 0, 0, 0, 0, none, none, none, some "table_1_users", none⟩
    ⟨1, 1, "users", "single_column", true⟩ ⟨1, true⟩
    (by rfl) rfl rfl (by rfl) (by rfl) rfl (by rfl)

end TTS
